import Mathlib

/-!
Shallow embedding of the classification engine of `semops-core`
(`scripts/classifiers/*.py`, `scripts/run_classifiers.py`) and proofs about it.

Numeric scores are Python floats in the source; they are modelled here by an
exact fraction type `Q` (integer numerator/denominator, denominator kept
positive by construction) so that every definition is executable and every
comparison is kernel-decidable.  Database and provider interactions are
modelled by passing the table contents / query results as explicit arguments.
-/

/-- Exact fraction `num / den` modelling Python float scores.  All constructed
values keep `den` positive; comparisons are by cross multiplication. -/
structure Q where
  num : Int
  den : Int
deriving DecidableEq, Repr

def Q.ofInt (n : Int) : Q := ⟨n, 1⟩

def Q.ofNat (n : Nat) : Q := ⟨(n : Int), 1⟩

/-- Sign-normalising constructor: keeps the denominator nonnegative. -/
def Q.mkS (n d : Int) : Q := if d < 0 then ⟨-n, -d⟩ else ⟨n, d⟩

def Q.add (a b : Q) : Q := ⟨a.num * b.den + b.num * a.den, a.den * b.den⟩

def Q.sub (a b : Q) : Q := ⟨a.num * b.den - b.num * a.den, a.den * b.den⟩

def Q.mul (a b : Q) : Q := ⟨a.num * b.num, a.den * b.den⟩

def Q.div (a b : Q) : Q := Q.mkS (a.num * b.den) (a.den * b.num)

/-- `a ≤ b` by cross multiplication (denominators positive). -/
def Q.le (a b : Q) : Bool := a.num * b.den ≤ b.num * a.den

/-- `a < b` by cross multiplication (denominators positive). -/
def Q.lt (a b : Q) : Bool := a.num * b.den < b.num * a.den

/-- Python float truthiness: `0.0` is falsy. -/
def Q.isZero (a : Q) : Bool := a.num = 0

def Q.minQ (a b : Q) : Q := if Q.le a b then a else b

/-- Integer floor of a fraction (denominator positive). -/
def Q.floorI (a : Q) : Int := a.num.fdiv a.den

/-- Python `round` to an integer: round-half-to-even. -/
def py_round_int (a : Q) : Int :=
  let f := a.floorI
  let r := Q.sub a (Q.ofInt f)
  if Q.lt r ⟨1, 2⟩ then f
  else if Q.lt ⟨1, 2⟩ r then f + 1
  else if f % 2 = 0 then f else f + 1

/-- Python `round(x, d)`: round-half-to-even at `d` decimal digits. -/
def py_round (a : Q) (d : Nat) : Q :=
  let p : Int := (10 : Int) ^ d
  ⟨py_round_int (Q.mul a (Q.ofInt p)), p⟩

/-- A value of the JSON `scores` payload of a result (float / bool / string /
null, as the Python dict holds mixed types). -/
inductive ScoreVal where
  | num (q : Q)
  | bool (b : Bool)
  | str (s : String)
  | null
deriving DecidableEq, Repr

/-- A value of the JSON `labels` payload of a result. -/
inductive LabelVal where
  | str (s : String)
  | strs (l : List String)
  | bool (b : Bool)
  | num (q : Q)
  | null
deriving DecidableEq, Repr

/-- `ClassificationResult` dataclass of `scripts/classifiers/base.py`. -/
structure ClassificationResult where
  target_type : String
  target_id : String
  classifier_id : String
  classifier_version : String
  scores : List (String × ScoreVal) := []
  labels : List (String × LabelVal) := []
  confidence : Option Q := none
  rationale : Option String := none
  input_hash : Option String := none
deriving DecidableEq, Repr

def ClassificationResult.getScore (r : ClassificationResult) (k : String) :
    Option ScoreVal :=
  r.scores.lookup k

def ClassificationResult.getLabel (r : ClassificationResult) (k : String) :
    Option LabelVal :=
  r.labels.lookup k

/-- `BaseClassifier.compute_input_hash`.  The SHA-256 digest is modelled as an
abstract deterministic fingerprint of the input text (the theorems use only
that it is a pure function of the content, never properties of the digest). -/
def compute_input_hash (content : String) : String :=
  "sha256:" ++ content

/-- Python string truthiness for optional ids (`if some_id:`): `None` and the
empty string are falsy. -/
def strTruthy (o : Option String) : Bool :=
  match o with
  | some s => s ≠ ""
  | none => false

/-- Python `needle in hay` substring test, on character lists. -/
def containsSub (needle hay : List Char) : Bool :=
  (List.range (hay.length + 1)).any (fun i => needle.isPrefixOf (hay.drop i))

/-- Python `str.lower`, as a character list. -/
def py_lower (s : String) : List Char :=
  s.data.map Char.toLower

/-- Python dict assignment `d[k] = v` on an association list: replace the
binding if the key is present, append it otherwise. -/
def setKey (l : List (String × ScoreVal)) (k : String) (v : ScoreVal) :
    List (String × ScoreVal) :=
  if l.any (fun p => p.1 == k) then
    l.map (fun p => if p.1 == k then (k, v) else p)
  else l ++ [(k, v)]

/-- A row of the `concept_edge` relation. -/
structure Edge where
  src_id : String
  dst_id : String
  predicate : String
  strength : Q := ⟨1, 1⟩
deriving DecidableEq, Repr

/-- The `content` dict handed to `classify`; `.get` defaults of the source are
the field defaults.  Fields irrelevant to the modelled control flow (metadata,
visibility, alt labels) feed only prompt text and are omitted. -/
structure Content where
  preferred_label : String := ""
  definition : String := ""
  title : String := ""
  asset_type : String := ""
  primary_concept_id : Option String := none
  filespec_uri : Option String := none
  attribution_creator : Option String := none
deriving DecidableEq, Repr

namespace RuleBasedClassifier

/-- `RuleBasedClassifier._check_relationships`: SQL `EXISTS` over
`concept_edge` rows touching the concept on either side. -/
def check_relationships (edges : List Edge) (concept_id : String) : Bool :=
  edges.any (fun e => e.src_id == concept_id || e.dst_id == concept_id)

/-- Issues recorded by `RuleBasedClassifier._classify_concept`, in the order
the source appends them. -/
def concept_issues (edges : List Edge) (concept_id : String)
    (preferred_label definition : String) : List String :=
  (if preferred_label = "" then ["Missing preferred_label"] else []) ++
  (if definition = "" then ["Missing definition"] else []) ++
  (if definition = "" then [] else
    (if definition.length < 20 then ["Definition too short (<20 chars)"] else []) ++
    (if definition.length > 2000 then ["Definition too long (>2000 chars)"] else []) ++
    (if containsSub (py_lower preferred_label) ((py_lower definition).take 50) &&
        definition.length < 50
     then ["Definition may be circular (starts with term)"] else [])) ++
  (if check_relationships edges concept_id then []
   else ["No SKOS relationships (broader, narrower, related)"])

/-- `format_valid` of `RuleBasedClassifier._classify_concept`: starts `True`
and is cleared by the too-short, too-long and circular-definition checks (all
guarded by a non-empty definition). -/
def concept_format_valid (preferred_label definition : String) : Bool :=
  if definition = "" then true
  else
    !(decide (definition.length < 20)) && !(decide (definition.length > 2000)) &&
    !(containsSub (py_lower preferred_label) ((py_lower definition).take 50) &&
      decide (definition.length < 50))

/-- `completeness_score` of `RuleBasedClassifier._classify_concept`:
`0.0 + 0.3 (label) + 0.4 (definition) + 0.3 (relationships)`. -/
def concept_completeness (edges : List Edge) (concept_id : String)
    (preferred_label definition : String) : Q :=
  Q.add (Q.add (Q.add (Q.ofInt 0)
    (if preferred_label = "" then Q.ofInt 0 else ⟨3, 10⟩))
    (if definition = "" then Q.ofInt 0 else ⟨2, 5⟩))
    (if check_relationships edges concept_id then ⟨3, 10⟩ else Q.ofInt 0)

/-- `RuleBasedClassifier._classify_concept`.  The `concept_edge` table is the
`edges` argument. -/
def classify_concept (edges : List Edge) (concept_id : String)
    (content : Content) : ClassificationResult :=
  let definition := content.definition
  let preferred_label := content.preferred_label
  let issues := concept_issues edges concept_id preferred_label definition
  let completeness_score :=
    concept_completeness edges concept_id preferred_label definition
  let format_valid := concept_format_valid preferred_label definition
  let has_relationships := check_relationships edges concept_id
  let promotion_ready :=
    Q.le ⟨7, 10⟩ completeness_score && format_valid &&
    decide (issues.length ≤ 1)
  let scores : List (String × ScoreVal) :=
    [("completeness", .num (py_round completeness_score 2)),
     ("format_valid", .bool format_valid),
     ("has_relationships", .bool has_relationships),
     ("promotion_ready", .bool promotion_ready)]
  let rationale :=
    if issues = [] then "All validation rules passed"
    else "Issues found: " ++ String.intercalate "; " issues
  { target_type := "concept"
    target_id := concept_id
    classifier_id := "rule-completeness-v1"
    classifier_version := "1.0.0"
    scores := scores
    labels := [("issues", .strs issues)]
    confidence := some (Q.ofInt 1)
    rationale := some rationale
    input_hash := some (compute_input_hash (preferred_label ++ "|" ++ definition)) }

/-- Issues recorded by `RuleBasedClassifier._classify_entity`, in source
order.  The completeness checks use Python truthiness on the optional
fields. -/
def entity_issues (content : Content) : List String :=
  (if content.title = "" then ["Missing title"] else []) ++
  (if content.asset_type = "" then ["Missing asset_type"] else []) ++
  (if strTruthy content.primary_concept_id then []
   else ["Orphan entity (no primary_concept_id)"]) ++
  (if strTruthy content.filespec_uri then [] else ["Missing filespec.uri"]) ++
  (if strTruthy content.attribution_creator then []
   else ["Missing attribution.creator"])

/-- `completeness_score` of `RuleBasedClassifier._classify_entity`:
`0.0 + 0.2 (title) + 0.1 (asset type) + 0.3 (primary concept) +
0.2 (filespec uri) + 0.2 (attribution creator)`. -/
def entity_completeness (content : Content) : Q :=
  Q.add (Q.add (Q.add (Q.add (Q.add (Q.ofInt 0)
    (if content.title = "" then Q.ofInt 0 else ⟨1, 5⟩))
    (if content.asset_type = "" then Q.ofInt 0 else ⟨1, 10⟩))
    (if strTruthy content.primary_concept_id then ⟨3, 10⟩ else Q.ofInt 0))
    (if strTruthy content.filespec_uri then ⟨1, 5⟩ else Q.ofInt 0))
    (if strTruthy content.attribution_creator then ⟨1, 5⟩ else Q.ofInt 0)

/-- `RuleBasedClassifier._classify_entity`: a non-null primary concept link
is hard-required for promotion (`primary_concept_id is not None`). -/
def classify_entity (entity_id : String) (content : Content) :
    ClassificationResult :=
  let issues := entity_issues content
  let completeness_score := entity_completeness content
  let promotion_ready :=
    Q.le ⟨7, 10⟩ completeness_score && content.primary_concept_id.isSome
  let scores : List (String × ScoreVal) :=
    [("completeness", .num (py_round completeness_score 2)),
     ("is_orphan", .bool content.primary_concept_id.isNone),
     ("has_filespec", .bool (strTruthy content.filespec_uri)),
     ("has_attribution", .bool (strTruthy content.attribution_creator)),
     ("promotion_ready", .bool promotion_ready)]
  let rationale :=
    if issues = [] then "All validation rules passed"
    else "Issues found: " ++ String.intercalate "; " issues
  { target_type := "entity"
    target_id := entity_id
    classifier_id := "rule-completeness-v1"
    classifier_version := "1.0.0"
    scores := scores
    labels := [("issues", .strs issues)]
    confidence := some (Q.ofInt 1)
    rationale := some rationale
    input_hash := some (compute_input_hash (content.title ++ "|" ++
      content.asset_type ++ "|" ++
      (match content.primary_concept_id with | some s => s | none => "None"))) }

/-- `RuleBasedClassifier.classify`: dispatches on `target_type` and raises
`ValueError` (modelled as `Except.error`) for any other target type. -/
def classify (edges : List Edge) (target_type target_id : String)
    (content : Content) : Except String ClassificationResult :=
  if target_type = "concept" then .ok (classify_concept edges target_id content)
  else if target_type = "entity" then .ok (classify_entity target_id content)
  else .error ("Unknown target_type: " ++ target_type)

end RuleBasedClassifier

/-- A row of the `concept` table (the columns the engine reads or writes). -/
structure ConceptRow where
  id : String
  preferred_label : String := ""
  definition : String := ""
  provenance : String := ""
  alt_labels : List String := []
  approval_status : String := "pending"
  embedding : Option (List Q) := none
  embedding_local : Option (List Q) := none
  created_at : Nat := 0
deriving DecidableEq, Repr

namespace EmbeddingClassifier

/-- The related-id set of `_compute_coherence`'s SQL CTE: distinct opposite
endpoints of every `concept_edge` row touching the concept (no predicate
filter in this variant). -/
def related_ids (edges : List Edge) (concept_id : String) : List String :=
  ((edges.filter (fun e => e.src_id == concept_id || e.dst_id == concept_id)).map
    (fun e => if e.src_id == concept_id then e.dst_id else e.src_id)).dedup

/-- `EmbeddingClassifier._compute_coherence`.  `db_avg`/`db_count` are the
`AVG`/`COUNT` aggregates the vector store returns for the join; when the
related set is empty the join is empty and `AVG` is SQL `NULL`.  The source's
`if result and result[0]` collapses a `NULL` or `0.0` average to `(None, 0)`. -/
def compute_coherence (edges : List Edge) (concept_id : String)
    (db_avg : Option Q) (db_count : Nat) : Option Q × Nat :=
  if (related_ids edges concept_id).isEmpty then (none, 0)
  else
    match db_avg with
    | some a => if a.isZero then (none, 0) else (some a, db_count)
    | none => (none, 0)

/-- `EmbeddingClassifier._find_nearest_approved`: top-1 row of the
similarity query over approved first-party concepts, or no row. -/
def find_nearest_approved (q : Option (String × Q)) : Option String × Option Q :=
  match q with
  | some (i, s) => (some i, some s)
  | none => (none, none)

/-- `EmbeddingClassifier._find_potential_duplicate`: top-1 row of the
similarity query over all other concepts, or no row. -/
def find_potential_duplicate (q : Option (String × Q)) : Option String × Q :=
  match q with
  | some (i, s) => (some i, s)
  | none => (none, Q.ofInt 0)

/-- `EmbeddingClassifier._classify_concept`.  `near_q`/`dup_q` are the top-1
rows of the two similarity queries. -/
def classify_concept (edges : List Edge) (db_avg : Option Q) (db_count : Nat)
    (near_q dup_q : Option (String × Q)) (concept_id : String)
    (content : Content) : ClassificationResult :=
  let coherence_pair := compute_coherence edges concept_id db_avg db_count
  let coherence_score := coherence_pair.1
  let related_count := coherence_pair.2
  let nearest_pair := find_nearest_approved near_q
  let nearest_approved_id := nearest_pair.1
  let nearest_distance := nearest_pair.2
  let duplicate_pair := find_potential_duplicate dup_q
  let duplicate_id := duplicate_pair.1
  let duplicate_similarity := duplicate_pair.2
  let is_coherent :=
    match coherence_score with
    | some c => Q.le ⟨3, 5⟩ c
    | none => true
  let is_potential_duplicate := Q.le ⟨19, 20⟩ duplicate_similarity
  let is_orphan_by_embedding :=
    match nearest_distance with
    | some d => Q.lt d ⟨7, 10⟩
    | none => false
  let promotion_ready :=
    is_coherent && !is_potential_duplicate && !is_orphan_by_embedding
  let scores : List (String × ScoreVal) :=
    [("coherence",
      match coherence_score with
      | some c => if c.isZero then .null else .num (py_round c 3)
      | none => .null),
     ("related_concept_count", .num (Q.ofNat related_count)),
     ("nearest_approved_similarity",
      match nearest_distance with
      | some d => if d.isZero then .null else .num (py_round d 3)
      | none => .null),
     ("duplicate_similarity",
      if duplicate_similarity.isZero then .null
      else .num (py_round duplicate_similarity 3)),
     ("is_coherent", .bool is_coherent),
     ("is_potential_duplicate", .bool is_potential_duplicate),
     ("promotion_ready", .bool promotion_ready)]
  let labels : List (String × LabelVal) :=
    (if strTruthy nearest_approved_id then
      [("nearest_approved", .str (nearest_approved_id.getD ""))]
     else []) ++
    (if is_potential_duplicate && strTruthy duplicate_id then
      [("potential_duplicate", .str (duplicate_id.getD ""))]
     else [])
  { target_type := "concept"
    target_id := concept_id
    classifier_id := "embedding-coherence-v1"
    classifier_version := "1.0.0"
    scores := scores
    labels := labels
    confidence := some ⟨17, 20⟩
    rationale := some "Embedding analysis rationale"
    input_hash := some (compute_input_hash
      (content.preferred_label ++ "|" ++ content.definition)) }

/-- `EmbeddingClassifier.ensure_embedding`: generate-if-missing write of the
`embedding` column.  `provider` models the OpenAI call on the synthesized
text; `none` models a raised provider error (caught, returning `False`). -/
def ensure_embedding (db : List ConceptRow) (concept_id : String)
    (content : Content) (provider : String → Option (List Q)) :
    Bool × List ConceptRow :=
  let existing := db.find? (fun c => c.id == concept_id)
  match existing with
  | some c =>
    if c.embedding.isSome then (true, db)
    else
      let text := content.preferred_label ++ ": " ++ content.definition
      match provider text with
      | none => (false, db)
      | some v =>
        (true, db.map (fun r => if r.id == concept_id then
          { r with embedding := some v } else r))
  | none =>
    let text := content.preferred_label ++ ": " ++ content.definition
    match provider text with
    | none => (false, db)
    | some v =>
      (true, db.map (fun r => if r.id == concept_id then
        { r with embedding := some v } else r))

/-- `EmbeddingClassifier.classify`: non-concept targets get a skip result;
embedding-generation failure gets an error result; otherwise the concept is
scored.  This variant never raises. -/
def classify (edges : List Edge) (db_avg : Option Q) (db_count : Nat)
    (near_q dup_q : Option (String × Q)) (ensure_ok : Bool)
    (target_type target_id : String) (content : Content) :
    ClassificationResult :=
  if target_type ≠ "concept" then
    { target_type := target_type
      target_id := target_id
      classifier_id := "embedding-coherence-v1"
      classifier_version := "1.0.0"
      scores := [("skipped", .bool true)]
      labels := [("reason", .str "Embedding classification only supports concepts")]
      confidence := none
      rationale := some "Entity embedding classification not implemented" }
  else if !ensure_ok then
    { target_type := target_type
      target_id := target_id
      classifier_id := "embedding-coherence-v1"
      classifier_version := "1.0.0"
      scores := [("error", .bool true)]
      labels := [("reason", .str "Could not generate embedding")]
      confidence := none
      rationale := some "Failed to generate embedding for concept" }
  else classify_concept edges db_avg db_count near_q dup_q target_id content

end EmbeddingClassifier

namespace LocalEmbeddingClassifier

/-- The related-id set of `get_coherence_score`'s SQL: distinct opposite
endpoints of `concept_edge` rows with a hierarchical or associative
predicate. -/
def related_ids (edges : List Edge) (concept_id : String) : List String :=
  ((edges.filter (fun e =>
      (e.src_id == concept_id || e.dst_id == concept_id) &&
      (e.predicate == "broader" || e.predicate == "narrower" ||
       e.predicate == "related"))).map
    (fun e => if e.src_id == concept_id then e.dst_id else e.src_id)).dedup

/-- `LocalEmbeddingClassifier.get_coherence_score`: defaults to `0.5` for a
concept with no related concepts; otherwise the average similarity from the
vector store (`db_avg`), with `None`/`0.0` collapsed to `0.0` by the source's
`result[0] if result and result[0] else 0.0`. -/
def get_coherence_score (edges : List Edge) (concept_id : String)
    (db_avg : Option Q) : Q × List String :=
  let related := related_ids edges concept_id
  if related.isEmpty then (⟨1, 2⟩, [])
  else
    match db_avg with
    | some a => if a.isZero then (Q.ofInt 0, related) else (a, related)
    | none => (Q.ofInt 0, related)

/-- `LocalEmbeddingClassifier.get_duplicate_similarity`: top-1 similarity to
any other concept, `(0.0, None)` when there is no other embedded concept. -/
def get_duplicate_similarity (q : Option (String × Q)) : Q × Option String :=
  match q with
  | some (i, s) => (s, some i)
  | none => (Q.ofInt 0, none)

/-- `LocalEmbeddingClassifier.get_nearest_approved`: top-1 similarity to an
approved concept, `(0.0, None)` when none exists. -/
def get_nearest_approved (q : Option (String × Q)) : Q × Option String :=
  match q with
  | some (i, s) => (s, some i)
  | none => (Q.ofInt 0, none)

/-- `LocalEmbeddingClassifier.ensure_embedding`: generate-if-missing write of
the `embedding_local` column; `provider` models the Ollama call (`none` for a
failed or timed-out call). -/
def ensure_embedding (db : List ConceptRow) (concept_id : String)
    (content : Content) (provider : String → Option (List Q)) :
    Bool × List ConceptRow :=
  let existing := db.find? (fun c => c.id == concept_id)
  match existing with
  | some c =>
    if c.embedding_local.isSome then (true, db)
    else
      let text := content.preferred_label ++ ": " ++ content.definition
      match provider text with
      | none => (false, db)
      | some v =>
        (true, db.map (fun r => if r.id == concept_id then
          { r with embedding_local := some v } else r))
  | none =>
    let text := content.preferred_label ++ ": " ++ content.definition
    match provider text with
    | none => (false, db)
    | some v =>
      (true, db.map (fun r => if r.id == concept_id then
        { r with embedding_local := some v } else r))

/-- `LocalEmbeddingClassifier.classify`: raises `ValueError` (modelled as
`Except.error`) for non-concept targets; returns an error result when the
embedding could not be generated; otherwise scores the concept against the
three thresholds (coherent `≥ 0.60`, duplicate `> 0.95` for the label and
`< 0.95` required for promotion, orphan `< 0.70`). -/
def classify (edges : List Edge) (db_avg : Option Q)
    (dup_q near_q : Option (String × Q)) (ensure_ok : Bool)
    (target_type target_id : String) (content : Content) :
    Except String ClassificationResult :=
  if target_type ≠ "concept" then
    .error "LocalEmbeddingClassifier only supports concepts"
  else if !ensure_ok then
    .ok { target_type := target_type
          target_id := target_id
          classifier_id := "embedding-local-v1"
          classifier_version := "1.0.0"
          scores := [("error", .str "Could not generate embedding")]
          labels := [("status", .str "error")]
          confidence := some (Q.ofInt 0)
          rationale := some "Failed to generate or retrieve embedding" }
  else
    let coherence_pair := get_coherence_score edges target_id db_avg
    let coherence := coherence_pair.1
    let related_ids := coherence_pair.2
    let dup_pair := get_duplicate_similarity dup_q
    let dup_similarity := dup_pair.1
    let dup_id := dup_pair.2
    let nearest_pair := get_nearest_approved near_q
    let nearest_sim := nearest_pair.1
    let nearest_id := nearest_pair.2
    let labels : List (String × LabelVal) :=
      (if Q.lt ⟨19, 20⟩ dup_similarity then
        [("potential_duplicate",
          match dup_id with | some i => .str i | none => .null)]
       else []) ++
      (if Q.lt nearest_sim ⟨7, 10⟩ then [("orphan_candidate", .bool true)]
       else []) ++
      (if strTruthy nearest_id then
        [("nearest_approved",
          match nearest_id with | some i => .str i | none => .null)]
       else [])
    let promotion_ready :=
      Q.le ⟨3, 5⟩ coherence && Q.lt dup_similarity ⟨19, 20⟩ &&
      Q.le ⟨7, 10⟩ nearest_sim
    let scores : List (String × ScoreVal) :=
      [("coherence", .num coherence),
       ("duplicate_similarity", .num dup_similarity),
       ("nearest_approved_similarity", .num nearest_sim),
       ("promotion_ready", .bool promotion_ready),
       ("related_count", .num (Q.ofNat related_ids.length))]
    .ok { target_type := target_type
          target_id := target_id
          classifier_id := "embedding-local-v1"
          classifier_version := "1.0.0"
          scores := scores
          labels := labels
          confidence := some coherence
          rationale := some "Local embedding rationale"
          input_hash := some (compute_input_hash
            (content.preferred_label ++ ": " ++ content.definition)) }

end LocalEmbeddingClassifier

/-- A node of the Neo4j graph mirror as `GraphClassifier` reads it: id,
synced `approval_status`, incident-edge count (the Cypher `count(r)`), and the
cached `pagerank`/`community` properties written by the periodic batch job
(`null` until that job has run). -/
structure GraphNode where
  id : String
  approval_status : Option String := some "pending"
  degree : Nat := 0
  pagerank : Option Q := none
  community : Option Int := none
deriving DecidableEq, Repr

namespace GraphClassifier

/-- `GraphClassifier._get_pagerank_percentile`: `0.0` for a `None` pagerank,
otherwise the fraction of cached pagerank scores `≤` this node's. -/
def get_pagerank_percentile (all_scores : List Q) (pagerank : Option Q) : Q :=
  match pagerank with
  | none => Q.ofInt 0
  | some pr =>
    ⟨((all_scores.filter (fun s => Q.le s pr)).length : Int),
     (all_scores.length : Int)⟩

/-- `GraphClassifier._classify_concept`.  `nodes` is the mirror;
`has_cycle` is the result of the `BROADER*1..10` cycle query and `nearest`
the top row of the `shortestPath` query (id, hop count), both executed only
when the node exists.  A concept absent from the mirror produces the explicit
"not yet synced" error result instead of an exception (the function is
total). -/
def classify_concept (nodes : List GraphNode) (has_cycle : Bool)
    (nearest : Option (String × Nat)) (concept_id : String) :
    ClassificationResult :=
  match nodes.find? (fun n => n.id == concept_id) with
  | none =>
    { target_type := "concept"
      target_id := concept_id
      classifier_id := "graph-structure-v1"
      classifier_version := "1.0.0"
      scores := [("error", .bool true), ("in_neo4j", .bool false)]
      labels := [("reason", .str "Concept not found in Neo4j - run sync first")]
      confidence := none
      rationale := some "Concept must be synced to Neo4j before graph classification" }
  | some node =>
    let degree := node.degree
    let is_orphan := degree < 1
    let connectivity := Q.minQ (Q.div (Q.ofNat degree) (Q.ofInt 10)) (Q.ofInt 1)
    let pagerank := node.pagerank
    let pagerank_percentile :=
      get_pagerank_percentile (nodes.filterMap (fun n => n.pagerank)) pagerank
    let promotion_ready :=
      !is_orphan && !has_cycle && Q.le ⟨1, 10⟩ pagerank_percentile
    let scores : List (String × ScoreVal) :=
      [("degree", .num (Q.ofNat degree)),
       ("connectivity", .num (py_round connectivity 3)),
       ("pagerank",
        match pagerank with
        | some p => if p.isZero then .null else .num (py_round p 6)
        | none => .null),
       ("pagerank_percentile", .num (py_round pagerank_percentile 3)),
       ("is_orphan", .bool is_orphan),
       ("has_hierarchy_cycle", .bool has_cycle),
       ("distance_to_approved",
        match nearest with
        | some (_, d) => .num (Q.ofNat d)
        | none => .null),
       ("promotion_ready", .bool promotion_ready)]
    let labels : List (String × LabelVal) :=
      [("community",
        match node.community with | some c => .num (Q.ofInt c) | none => .null)] ++
      (match nearest with
       | some (i, _) => if i ≠ "" then [("nearest_approved", .str i)] else []
       | none => []) ++
      (if is_orphan then [("issue", .str "orphan")]
       else if has_cycle then [("issue", .str "hierarchy_cycle")]
       else [])
    { target_type := "concept"
      target_id := concept_id
      classifier_id := "graph-structure-v1"
      classifier_version := "1.0.0"
      scores := scores
      labels := labels
      confidence := some ⟨19, 20⟩
      rationale := some "Graph structure rationale"
      input_hash := some (compute_input_hash (concept_id ++ "|" ++
        (match node.approval_status with | some s => s | none => "None"))) }

/-- `GraphClassifier.classify`: non-concept targets get a skip result. -/
def classify (nodes : List GraphNode) (has_cycle : Bool)
    (nearest : Option (String × Nat)) (target_type target_id : String) :
    ClassificationResult :=
  if target_type ≠ "concept" then
    { target_type := target_type
      target_id := target_id
      classifier_id := "graph-structure-v1"
      classifier_version := "1.0.0"
      scores := [("skipped", .bool true)]
      labels := [("reason", .str "Graph classification only supports concepts")]
      confidence := none
      rationale := some "Entity graph classification not implemented" }
  else classify_concept nodes has_cycle nearest target_id

end GraphClassifier

/-- The parsed JSON body of an LLM response (`_evaluate_with_llm` output):
the source reads each field with `.get` and a default. -/
structure LLMResponse where
  scores : List (String × ScoreVal) := []
  labels : List (String × LabelVal) := []
  rationale : Option String := none
  promotion_ready : Option Bool := none
deriving DecidableEq, Repr

namespace LLMClassifier

/-- `LLMClassifier._classify_concept`.  `outcome` models the provider call
plus JSON parse: `Except.error e` is a raised transport or shape error, which
the source catches and converts into an error result. -/
def classify_concept (concept_id : String) (content : Content)
    (outcome : Except String LLMResponse) : ClassificationResult :=
  match outcome with
  | .ok result =>
    let scores := setKey result.scores "promotion_ready"
      (.bool (result.promotion_ready.getD false))
    { target_type := "concept"
      target_id := concept_id
      classifier_id := "llm-quality-v1"
      classifier_version := "1.0.0"
      scores := scores
      labels := result.labels
      confidence := some ⟨3, 4⟩
      rationale := some (result.rationale.getD "LLM evaluation complete")
      input_hash := some (compute_input_hash
        (content.preferred_label ++ "|" ++ content.definition)) }
  | .error e =>
    { target_type := "concept"
      target_id := concept_id
      classifier_id := "llm-quality-v1"
      classifier_version := "1.0.0"
      scores := [("error", .bool true)]
      labels := [("error_message", .str e)]
      confidence := none
      rationale := some ("LLM evaluation failed: " ++ e) }

/-- `LLMClassifier._classify_entity`. -/
def classify_entity (entity_id : String) (content : Content)
    (outcome : Except String LLMResponse) : ClassificationResult :=
  match outcome with
  | .ok result =>
    let scores := setKey result.scores "promotion_ready"
      (.bool (result.promotion_ready.getD false))
    { target_type := "entity"
      target_id := entity_id
      classifier_id := "llm-quality-v1"
      classifier_version := "1.0.0"
      scores := scores
      labels := result.labels
      confidence := some ⟨3, 4⟩
      rationale := some (result.rationale.getD "LLM evaluation complete")
      input_hash := some (compute_input_hash
        (content.title ++ "|" ++ content.asset_type)) }
  | .error e =>
    { target_type := "entity"
      target_id := entity_id
      classifier_id := "llm-quality-v1"
      classifier_version := "1.0.0"
      scores := [("error", .bool true)]
      labels := [("error_message", .str e)]
      confidence := none
      rationale := some ("LLM evaluation failed: " ++ e) }

/-- `LLMClassifier.classify`: dispatches on `target_type`; an unknown target
type yields an error result rather than an exception. -/
def classify (target_type target_id : String) (content : Content)
    (outcome : Except String LLMResponse) : ClassificationResult :=
  if target_type = "concept" then classify_concept target_id content outcome
  else if target_type = "entity" then classify_entity target_id content outcome
  else
    { target_type := target_type
      target_id := target_id
      classifier_id := "llm-quality-v1"
      classifier_version := "1.0.0"
      scores := [("error", .bool true)]
      labels := [("reason", .str ("Unknown target type: " ++ target_type))]
      confidence := none
      rationale := some ("LLM classification not supported for " ++ target_type) }

end LLMClassifier

/-- Insert into a sorted list, modelling SQL `ORDER BY` (stable order of
equal keys is irrelevant to the theorems below). -/
def insertBy {α : Type} (le : α → α → Bool) (a : α) : List α → List α
  | [] => [a]
  | b :: t => if le a b then a :: b :: t else b :: insertBy le a t

/-- Insertion sort, modelling SQL `ORDER BY`. -/
def sortBy {α : Type} (le : α → α → Bool) : List α → List α
  | [] => []
  | a :: t => insertBy le a (sortBy le t)

/-- Codepoint-lexicographic comparison of character lists, modelling SQL
`ORDER BY` on a text column. -/
def strLeChars : List Char → List Char → Bool
  | [], _ => true
  | _ :: _, [] => false
  | a :: as, b :: bs =>
    if a.toNat < b.toNat then true
    else if b.toNat < a.toNat then false
    else strLeChars as bs

/-- Codepoint-lexicographic comparison of strings. -/
def strLe (a b : String) : Bool := strLeChars a.data b.data

/-- A persisted row of the `classification` table. -/
structure ClassRow where
  id : String
  target_type : String
  target_id : String
  classifier_id : String
  classifier_version : String
  scores : List (String × ScoreVal) := []
  labels : List (String × LabelVal) := []
  confidence : Option Q := none
  rationale : Option String := none
  input_hash : Option String := none
deriving DecidableEq, Repr

/-- The upsert key of the `classification` table. -/
def rowKey (r : ClassRow) : String × String × String × String :=
  (r.target_type, r.target_id, r.classifier_id, r.classifier_version)

/-- The upsert key of a freshly built result. -/
def resultKey (r : ClassificationResult) : String × String × String × String :=
  (r.target_type, r.target_id, r.classifier_id, r.classifier_version)

namespace BaseClassifier

/-- `BaseClassifier.save_result`: a plain `INSERT` of a fresh-id row, with no
`ON CONFLICT` clause.  Modelled from the spec: the `classification` table is
keyed uniquely by (target_type, target_id, classifier_id, classifier_version)
(§6 of the spec; the DDL itself is not under `src/`, but the CLI's
`ON CONFLICT` clause requires this unique key), so inserting a second row for
an existing key fails with a uniqueness violation instead of replacing the
prior row. -/
def save_result (tbl : List ClassRow) (classification_id : String)
    (result : ClassificationResult) : Except String (List ClassRow) :=
  let row : ClassRow :=
    { id := classification_id
      target_type := result.target_type
      target_id := result.target_id
      classifier_id := result.classifier_id
      classifier_version := result.classifier_version
      scores := result.scores
      labels := result.labels
      confidence := result.confidence
      rationale := result.rationale
      input_hash := result.input_hash }
  if tbl.any (fun r => decide (rowKey r = resultKey result)) then
    .error "duplicate key value violates unique constraint"
  else .ok (tbl ++ [row])

/-- `BaseClassifier.get_pending_concepts`: all `pending` concept rows ordered
by `created_at`. -/
def get_pending_concepts (tbl : List ConceptRow) : List ConceptRow :=
  sortBy (fun a b => decide (a.created_at ≤ b.created_at))
    (tbl.filter (fun c => c.approval_status == "pending"))

/-- A row of the `entity` table (the columns the engine reads). -/
structure EntityRow where
  id : String
  title : String := ""
  asset_type : String := ""
  visibility : String := ""
  primary_concept_id : Option String := none
  approval_status : String := "pending"
  created_at : Nat := 0
deriving DecidableEq, Repr

/-- `BaseClassifier.get_pending_entities`: all `pending` entity rows ordered
by `created_at`. -/
def get_pending_entities (tbl : List EntityRow) : List EntityRow :=
  sortBy (fun a b => decide (a.created_at ≤ b.created_at))
    (tbl.filter (fun e => e.approval_status == "pending"))

/-- The `if limit: items = items[:limit]` truncation of
`classify_pending_concepts` / `classify_pending_entities` (and of the CLI
`main`): Python truthiness makes a limit of `0` a no-op. -/
def apply_limit {α : Type} (limit : Option Nat) (l : List α) : List α :=
  match limit with
  | some n => if n = 0 then l else l.take n
  | none => l

end BaseClassifier

namespace RunClassifiers

/-- `run_classifiers.get_pending_concepts`: the CLI fetch of pending concepts,
ordered by `id` (`ORDER BY id`), not by creation time.  The SQL projects the
(id, preferred_label, definition, provenance) columns; the rows are returned
whole here since only their order and membership matter. -/
def get_pending_concepts (tbl : List ConceptRow) : List ConceptRow :=
  sortBy (fun a b => strLe a.id b.id)
    (tbl.filter (fun c => c.approval_status == "pending"))

/-- The result dict built by the CLI classifiers and handed to
`save_classification` (`classifier_id`, `scores`, `labels`, `confidence`
defaulting to `1.0`, `rationale` defaulting to `""`). -/
structure CliResult where
  classifier_id : String
  scores : List (String × ScoreVal) := []
  labels : List (String × LabelVal) := []
  confidence : Q := Q.ofInt 1
  rationale : String := ""
deriving DecidableEq, Repr

/-- The upsert key under which `save_classification` writes. -/
def cliKey (concept_id : String) (result : CliResult) :
    String × String × String × String :=
  ("concept", concept_id, result.classifier_id, "1.0.0")

/-- `run_classifiers.save_classification`: `INSERT ... ON CONFLICT
(target_type, target_id, classifier_id, classifier_version) DO UPDATE SET
scores = ..., labels = ..., rationale = ...`.  The insert never writes
`input_hash` (it stays `NULL` on insert) and the conflict update touches only
`scores`, `labels` and `rationale`, leaving `id`, `confidence` and
`input_hash` of an existing row unchanged. -/
def save_classification (tbl : List ClassRow) (classification_id : String)
    (concept_id : String) (result : CliResult) : List ClassRow :=
  let newRow : ClassRow :=
    { id := classification_id
      target_type := "concept"
      target_id := concept_id
      classifier_id := result.classifier_id
      classifier_version := "1.0.0"
      scores := result.scores
      labels := result.labels
      confidence := some result.confidence
      rationale := some result.rationale
      input_hash := none }
  if tbl.any (fun r => decide (rowKey r = cliKey concept_id result)) then
    tbl.map (fun r =>
      if rowKey r = cliKey concept_id result then
        { r with scores := result.scores, labels := result.labels,
                 rationale := some result.rationale }
      else r)
  else tbl ++ [newRow]

end RunClassifiers

/-! ## Shared helper lemmas -/

/-- Cross-multiplied `≤` and strict `<` in the opposite direction exclude each
other (used to relate the duplicate threshold to the promotion conjunct). -/
theorem Q.le_imp_lt_false (a b : Q) (h : Q.le a b = true) : Q.lt b a = false := by
  simp [Q.le] at h
  simp [Q.lt]
  omega

/-- Claim C6: for a synced concept of degree 0, the Graph Strategy marks it
an orphan and blocks promotion, whatever the cycle status, pagerank,
community or nearest-approved signals. -/
theorem graph_orphan_dominance
    (nodes : List GraphNode) (has_cycle : Bool) (nearest : Option (String × Nat))
    (concept_id : String) (node : GraphNode)
    (hfind : nodes.find? (fun n => n.id == concept_id) = some node)
    (hdeg : node.degree = 0) :
    (GraphClassifier.classify_concept nodes has_cycle nearest concept_id).getScore
        "is_orphan" = some (.bool true) ∧
    (GraphClassifier.classify_concept nodes has_cycle nearest concept_id).getScore
        "promotion_ready" = some (.bool false) := by
  simp [GraphClassifier.classify_concept, hfind, hdeg,
    ClassificationResult.getScore, List.lookup]

/-- Witness for C6 at a concrete mirror: a zero-degree node with a cached
pagerank, a hierarchy free of cycles and an approved node nearby. -/
theorem graph_orphan_dominance_witness :
    ([{ id := "c1", degree := 0, pagerank := some ⟨1, 2⟩ : GraphNode }].find?
        (fun n => n.id == "c1") =
      some { id := "c1", degree := 0, pagerank := some ⟨1, 2⟩ : GraphNode }) ∧
    (GraphClassifier.classify_concept
        [{ id := "c1", degree := 0, pagerank := some ⟨1, 2⟩ }] false
        (some ("a1", 2)) "c1").getScore "is_orphan" = some (.bool true) ∧
    (GraphClassifier.classify_concept
        [{ id := "c1", degree := 0, pagerank := some ⟨1, 2⟩ }] false
        (some ("a1", 2)) "c1").getScore "promotion_ready" = some (.bool false) :=
  ⟨by decide,
   graph_orphan_dominance _ false (some ("a1", 2)) "c1"
     { id := "c1", degree := 0, pagerank := some ⟨1, 2⟩ } (by decide) (by decide)⟩

/-- Claim C7: a concept absent from the Neo4j mirror gets the explicit
"not yet synced" error result (the classifier is a total function here — it
does not throw). -/
theorem graph_not_synced_error
    (nodes : List GraphNode) (has_cycle : Bool) (nearest : Option (String × Nat))
    (concept_id : String)
    (hfind : nodes.find? (fun n => n.id == concept_id) = none) :
    (GraphClassifier.classify_concept nodes has_cycle nearest concept_id).getScore
        "error" = some (.bool true) ∧
    (GraphClassifier.classify_concept nodes has_cycle nearest concept_id).getScore
        "in_neo4j" = some (.bool false) ∧
    (GraphClassifier.classify_concept nodes has_cycle nearest concept_id).getLabel
        "reason" = some (.str "Concept not found in Neo4j - run sync first") ∧
    (GraphClassifier.classify_concept nodes has_cycle nearest concept_id).rationale
      = some "Concept must be synced to Neo4j before graph classification" := by
  simp [GraphClassifier.classify_concept, hfind,
    ClassificationResult.getScore, ClassificationResult.getLabel, List.lookup]

/-- Witness for C7: a mirror holding only another concept. -/
theorem graph_not_synced_error_witness :
    ([{ id := "other", degree := 3 : GraphNode }].find?
        (fun n => n.id == "c9") = none) ∧
    (GraphClassifier.classify_concept [{ id := "other", degree := 3 }] false none
        "c9").getScore "error" = some (.bool true) ∧
    (GraphClassifier.classify_concept [{ id := "other", degree := 3 }] false none
        "c9").getScore "in_neo4j" = some (.bool false) ∧
    (GraphClassifier.classify_concept [{ id := "other", degree := 3 }] false none
        "c9").getLabel "reason" =
      some (.str "Concept not found in Neo4j - run sync first") ∧
    (GraphClassifier.classify_concept [{ id := "other", degree := 3 }] false none
        "c9").rationale =
      some "Concept must be synced to Neo4j before graph classification" :=
  ⟨by decide, graph_not_synced_error _ false none "c9" (by decide)⟩

/-- Claim C10: a synced concept whose cached pagerank is still `NULL` gets
`pagerank_percentile = 0.0` and is never promotion-ready, whatever its
degree, cycle status or connectivity. -/
theorem graph_null_pagerank_blocks
    (nodes : List GraphNode) (has_cycle : Bool) (nearest : Option (String × Nat))
    (concept_id : String) (node : GraphNode)
    (hfind : nodes.find? (fun n => n.id == concept_id) = some node)
    (hpr : node.pagerank = none) :
    (∃ q, (GraphClassifier.classify_concept nodes has_cycle nearest
        concept_id).getScore "pagerank_percentile" = some (.num q) ∧ q.num = 0) ∧
    (GraphClassifier.classify_concept nodes has_cycle nearest concept_id).getScore
        "promotion_ready" = some (.bool false) := by
  constructor
  · exact ⟨⟨0, 1000⟩, by
      simp [GraphClassifier.classify_concept, hfind, hpr,
        GraphClassifier.get_pagerank_percentile, py_round, py_round_int,
        Q.ofInt, Q.mul, Q.sub, Q.lt, Q.floorI, Int.fdiv,
        ClassificationResult.getScore, List.lookup], rfl⟩
  · simp [GraphClassifier.classify_concept, hfind, hpr,
      GraphClassifier.get_pagerank_percentile, Q.ofInt, Q.le,
      ClassificationResult.getScore, List.lookup]

/-- Witness for C10: a well-connected, cycle-free node with no cached
pagerank. -/
theorem graph_null_pagerank_blocks_witness :
    ([{ id := "c2", degree := 7, pagerank := none : GraphNode }].find?
        (fun n => n.id == "c2") =
      some { id := "c2", degree := 7, pagerank := none : GraphNode }) ∧
    ((∃ q, (GraphClassifier.classify_concept
        [{ id := "c2", degree := 7, pagerank := none }] false (some ("a1", 1))
        "c2").getScore "pagerank_percentile" = some (.num q) ∧ q.num = 0) ∧
     (GraphClassifier.classify_concept
        [{ id := "c2", degree := 7, pagerank := none }] false (some ("a1", 1))
        "c2").getScore "promotion_ready" = some (.bool false)) :=
  ⟨by decide,
   graph_null_pagerank_blocks _ false (some ("a1", 1)) "c2"
     { id := "c2", degree := 7, pagerank := none } (by decide) (by decide)⟩

/-- Claim C2: whatever the edge table says and whatever the 15-character
definition contains, the Rule Strategy reports `format_valid = false`, the
"Definition too short" issue, and `promotion_ready = false` for a concept
labelled "DDD". -/
theorem rules_short_definition_blocks
    (edges : List Edge) (concept_id : String) (defn : String)
    (hlen : defn.length = 15) :
    ∃ r, RuleBasedClassifier.classify edges "concept" concept_id
        { preferred_label := "DDD", definition := defn } = .ok r ∧
      r.getScore "format_valid" = some (.bool false) ∧
      r.getScore "promotion_ready" = some (.bool false) ∧
      ∃ issues, r.getLabel "issues" = some (.strs issues) ∧
        "Definition too short (<20 chars)" ∈ issues := by
  have hne : defn ≠ "" := by
    intro he
    rw [he] at hlen
    exact absurd hlen (by decide)
  refine ⟨_, rfl, ?_⟩
  cases hcs : containsSub (py_lower "DDD") ((py_lower defn).take 50) <;>
  cases hrel : RuleBasedClassifier.check_relationships edges concept_id <;>
  simp [RuleBasedClassifier.classify_concept, RuleBasedClassifier.concept_issues,
    RuleBasedClassifier.concept_format_valid,
    RuleBasedClassifier.concept_completeness, hne, hlen, hcs, hrel,
    ClassificationResult.getScore, ClassificationResult.getLabel, List.lookup]

/-- Witness for C2: a concrete 15-character definition. -/
theorem rules_short_definition_blocks_witness :
    ("fifteen chars!!".length = 15) ∧
    (∃ r, RuleBasedClassifier.classify [] "concept" "c1"
        { preferred_label := "DDD", definition := "fifteen chars!!" } = .ok r ∧
      r.getScore "format_valid" = some (.bool false) ∧
      r.getScore "promotion_ready" = some (.bool false) ∧
      ∃ issues, r.getLabel "issues" = some (.strs issues) ∧
        "Definition too short (<20 chars)" ∈ issues) :=
  ⟨by decide, rules_short_definition_blocks [] "c1" "fifteen chars!!" (by decide)⟩

/-- Claim C4 (amended): with no Edge neighbors, the hosted vector variant
treats coherence as a pass (`coherence = None`, `is_coherent = true`), but the
local variant assigns the neutral `0.5`, which fails its own `≥ 0.60`
coherence threshold, so the absence of neighbors alone blocks promotion
there. -/
theorem vector_no_neighbors
    (edges : List Edge) (concept_id : String) (content : Content)
    (db_avg : Option Q) (db_count : Nat)
    (near_q dup_q dup_q2 near_q2 : Option (String × Q))
    (h1 : EmbeddingClassifier.related_ids edges concept_id = [])
    (h2 : LocalEmbeddingClassifier.related_ids edges concept_id = []) :
    ((EmbeddingClassifier.classify_concept edges db_avg db_count near_q dup_q
        concept_id content).getScore "is_coherent" = some (.bool true) ∧
     (EmbeddingClassifier.classify_concept edges db_avg db_count near_q dup_q
        concept_id content).getScore "coherence" = some .null) ∧
    (∃ r, LocalEmbeddingClassifier.classify edges db_avg dup_q2 near_q2 true
        "concept" concept_id content = .ok r ∧
      r.getScore "coherence" = some (.num ⟨1, 2⟩) ∧
      Q.le ⟨3, 5⟩ ⟨1, 2⟩ = false ∧
      r.getScore "promotion_ready" = some (.bool false)) := by
  constructor
  · constructor <;>
    simp [EmbeddingClassifier.classify_concept,
      EmbeddingClassifier.compute_coherence, h1,
      ClassificationResult.getScore, List.lookup]
  · refine ⟨_, rfl, ?_⟩
    simp [LocalEmbeddingClassifier.classify,
      LocalEmbeddingClassifier.get_coherence_score, h2,
      ClassificationResult.getScore, List.lookup, Q.le]

/-- Witness for C4 at a concrete input: an edge table whose only edge touches
other concepts. -/
theorem vector_no_neighbors_witness :
    (EmbeddingClassifier.related_ids
        [{ src_id := "x", dst_id := "y", predicate := "related" }] "c1" = []) ∧
    (((EmbeddingClassifier.classify_concept
        [{ src_id := "x", dst_id := "y", predicate := "related" }] (some ⟨4, 5⟩)
        1 none none "c1" {}).getScore "is_coherent" = some (.bool true) ∧
      (EmbeddingClassifier.classify_concept
        [{ src_id := "x", dst_id := "y", predicate := "related" }] (some ⟨4, 5⟩)
        1 none none "c1" {}).getScore "coherence" = some .null) ∧
     (∃ r, LocalEmbeddingClassifier.classify
        [{ src_id := "x", dst_id := "y", predicate := "related" }] (some ⟨4, 5⟩)
        (some ("d", ⟨1, 2⟩)) (some ("a", ⟨9, 10⟩)) true "concept" "c1" {} = .ok r ∧
      r.getScore "coherence" = some (.num ⟨1, 2⟩) ∧
      Q.le ⟨3, 5⟩ ⟨1, 2⟩ = false ∧
      r.getScore "promotion_ready" = some (.bool false))) :=
  ⟨by decide,
   vector_no_neighbors [{ src_id := "x", dst_id := "y", predicate := "related" }]
     "c1" {} (some ⟨4, 5⟩) 1 none none (some ("d", ⟨1, 2⟩)) (some ("a", ⟨9, 10⟩))
     (by decide) (by decide)⟩

/-- Counterexample to C4 as stated: in the local variant a concept with no
Edge neighbors, a harmless duplicate similarity (0.5) and a close approved
neighbor (0.9) is still not promotion-ready — the neutral coherence default
0.5 fails the `≥ 0.60` coherence conjunct by itself. -/
theorem vector_no_neighbors_counterexample :
    (LocalEmbeddingClassifier.related_ids [] "c1" = []) ∧
    ((LocalEmbeddingClassifier.classify [] none (some ("d", ⟨1, 2⟩))
        (some ("a", ⟨9, 10⟩)) true "concept" "c1" {}).toOption.map
      (fun r => (r.getScore "coherence", r.getScore "promotion_ready")) =
      some (some (.num ⟨1, 2⟩), some (.bool false))) ∧
    Q.lt (⟨1, 2⟩ : Q) ⟨19, 20⟩ = true ∧
    Q.le (⟨7, 10⟩ : Q) ⟨9, 10⟩ = true := by
  decide

/-- Association-list lookup skips a block none of whose keys match. -/
theorem lookup_append_of_no_key {β : Type} (k : String)
    (l1 l2 : List (String × β)) (h : ∀ p ∈ l1, (k == p.1) = false) :
    (l1 ++ l2).lookup k = l2.lookup k := by
  induction l1 with
  | nil => rfl
  | cons a t ih =>
    have ha := h a (by simp)
    simp [List.lookup, ha]
    exact ih (fun p hp => h p (by simp [hp]))

/-- Claim C5 (amended): with the top similarity row `(dupId, dupSim)`, the
hosted variant sets `labels.potential_duplicate` exactly when
`dupSim ≥ 0.95`, while the local variant sets it exactly when
`dupSim > 0.95` (strict); in both variants `dupSim ≥ 0.95` forces
`promotion_ready = false`. -/
theorem vector_duplicate_threshold
    (edges : List Edge) (concept_id : String) (content : Content)
    (db_avg : Option Q) (db_count : Nat) (near_q2 : Option (String × Q))
    (dupId : String) (dupSim : Q)
    (hne : dupId ≠ "") :
    ((EmbeddingClassifier.classify_concept edges db_avg db_count none
        (some (dupId, dupSim)) concept_id content).getLabel
          "potential_duplicate" = some (.str dupId) ↔
      Q.le ⟨19, 20⟩ dupSim = true) ∧
    (Q.le ⟨19, 20⟩ dupSim = true →
      (EmbeddingClassifier.classify_concept edges db_avg db_count none
        (some (dupId, dupSim)) concept_id content).getScore
          "promotion_ready" = some (.bool false)) ∧
    (∃ r, LocalEmbeddingClassifier.classify edges db_avg (some (dupId, dupSim))
        near_q2 true "concept" concept_id content = .ok r ∧
      (r.getLabel "potential_duplicate" = some (.str dupId) ↔
        Q.lt ⟨19, 20⟩ dupSim = true) ∧
      (Q.le ⟨19, 20⟩ dupSim = true →
        r.getScore "promotion_ready" = some (.bool false))) := by
  refine ⟨?_, ?_, ?_⟩
  · cases hle : Q.le ⟨19, 20⟩ dupSim <;>
    simp [EmbeddingClassifier.classify_concept,
      EmbeddingClassifier.find_potential_duplicate,
      EmbeddingClassifier.find_nearest_approved, hle, hne, strTruthy,
      ClassificationResult.getLabel, List.lookup]
  · intro hle
    simp [EmbeddingClassifier.classify_concept,
      EmbeddingClassifier.find_potential_duplicate,
      EmbeddingClassifier.find_nearest_approved, hle,
      ClassificationResult.getScore, List.lookup]
  · refine ⟨_, rfl, ?_, ?_⟩
    · cases hlt : Q.lt ⟨19, 20⟩ dupSim
      · rcases near_q2 with _ | ⟨ni, ns⟩
        · simp [LocalEmbeddingClassifier.classify,
            LocalEmbeddingClassifier.get_duplicate_similarity,
            LocalEmbeddingClassifier.get_nearest_approved, hlt, strTruthy,
            ClassificationResult.getLabel, List.lookup,
            (show Q.lt (Q.ofInt 0) ⟨7, 10⟩ = true by decide)]
        · cases hns : Q.lt ns ⟨7, 10⟩ <;> by_cases hni : ni = "" <;>
          simp [LocalEmbeddingClassifier.classify,
            LocalEmbeddingClassifier.get_duplicate_similarity,
            LocalEmbeddingClassifier.get_nearest_approved, hlt, hns, hni,
            strTruthy, ClassificationResult.getLabel, List.lookup]
      · simp [LocalEmbeddingClassifier.classify,
          LocalEmbeddingClassifier.get_duplicate_similarity,
          LocalEmbeddingClassifier.get_nearest_approved, hlt,
          ClassificationResult.getLabel, List.lookup]
    · intro hle
      have hltf := Q.le_imp_lt_false _ _ hle
      simp [LocalEmbeddingClassifier.classify,
        LocalEmbeddingClassifier.get_duplicate_similarity,
        LocalEmbeddingClassifier.get_nearest_approved, hltf,
        ClassificationResult.getScore, List.lookup]

/-- Witness for C5 at similarity 0.97 (Scenario D): both variants flag the
duplicate and block promotion. -/
theorem vector_duplicate_threshold_witness :
    ("other" ≠ "") ∧
    ((EmbeddingClassifier.classify_concept [] none 0 none
        (some ("other", ⟨97, 100⟩)) "c1" {}).getLabel "potential_duplicate" =
          some (.str "other") ↔ Q.le ⟨19, 20⟩ ⟨97, 100⟩ = true) ∧
    (Q.le ⟨19, 20⟩ (⟨97, 100⟩ : Q) = true →
      (EmbeddingClassifier.classify_concept [] none 0 none
        (some ("other", ⟨97, 100⟩)) "c1" {}).getScore "promotion_ready" =
          some (.bool false)) ∧
    (∃ r, LocalEmbeddingClassifier.classify [] none (some ("other", ⟨97, 100⟩))
        none true "concept" "c1" {} = .ok r ∧
      (r.getLabel "potential_duplicate" = some (.str "other") ↔
        Q.lt ⟨19, 20⟩ ⟨97, 100⟩ = true) ∧
      (Q.le ⟨19, 20⟩ (⟨97, 100⟩ : Q) = true →
        r.getScore "promotion_ready" = some (.bool false))) :=
  ⟨by decide,
   vector_duplicate_threshold [] "c1" {} none 0 none "other" ⟨97, 100⟩ (by decide)⟩

/-- Counterexample to C5 as stated: at duplicate similarity exactly 0.95 the
local variant records no `potential_duplicate` label (its test is strict
`> 0.95`), even though 0.95 ≥ 0.95; promotion is still blocked. -/
theorem vector_duplicate_threshold_counterexample :
    Q.le ⟨19, 20⟩ (⟨19, 20⟩ : Q) = true ∧
    ((LocalEmbeddingClassifier.classify [] none (some ("other", ⟨19, 20⟩))
        (some ("a", ⟨9, 10⟩)) true "concept" "c1" {}).toOption.map
      (fun r => (r.getLabel "potential_duplicate",
                 r.getScore "promotion_ready")) =
      some (none, some (.bool false))) := by
  decide

/-- Claim C3 (amended): for expected failure modes the LLM strategy converts
provider/parse errors and unknown target types into error results; the graph
strategy returns the explicit not-yet-synced error result for concepts absent
from the mirror and a skip result for non-concepts; the hosted vector variant
returns a skip result (scores `skipped`, no error flag) for non-concepts and
an error result when embedding generation fails, and the local variant also
returns an error result when embedding generation fails for a concept.  But
`classify` is not raise-free across strategies: the rule strategy raises
`ValueError` for an unknown target type, and the local vector variant raises
`ValueError` for every non-concept target, entities included. -/
theorem classify_error_contract
    (edges : List Edge) (tt ttl tid : String) (content : Content) (e : String)
    (db_avg : Option Q) (dup_q near_q : Option (String × Q))
    (ensure_ok : Bool) (nodes : List GraphNode) (has_cycle : Bool)
    (nearest : Option (String × Nat))
    (h1 : tt ≠ "concept") (h2 : tt ≠ "entity") (h3 : ttl ≠ "concept")
    (hfind : nodes.find? (fun n => n.id == tid) = none) :
    RuleBasedClassifier.classify edges tt tid content =
      .error ("Unknown target_type: " ++ tt) ∧
    LocalEmbeddingClassifier.classify edges db_avg dup_q near_q ensure_ok ttl
        tid content = .error "LocalEmbeddingClassifier only supports concepts" ∧
    ((LLMClassifier.classify_concept tid content (.error e)).getScore "error" =
        some (.bool true) ∧
     (LLMClassifier.classify_concept tid content (.error e)).rationale =
        some ("LLM evaluation failed: " ++ e)) ∧
    (LLMClassifier.classify tt tid content (.error e)).getScore "error" =
      some (.bool true) ∧
    ((GraphClassifier.classify nodes has_cycle nearest "concept" tid).getScore
        "error" = some (.bool true) ∧
     (GraphClassifier.classify nodes has_cycle nearest "concept" tid).getLabel
        "reason" = some (.str "Concept not found in Neo4j - run sync first")) ∧
    (GraphClassifier.classify nodes has_cycle nearest tt tid).getScore
        "skipped" = some (.bool true) ∧
    ((EmbeddingClassifier.classify edges db_avg 0 near_q dup_q true tt
        tid content).getScore "skipped" = some (.bool true) ∧
     (EmbeddingClassifier.classify edges db_avg 0 near_q dup_q true tt
        tid content).getScore "error" = none) ∧
    ((EmbeddingClassifier.classify edges db_avg 0 near_q dup_q false "concept"
        tid content).getScore "error" = some (.bool true) ∧
     (EmbeddingClassifier.classify edges db_avg 0 near_q dup_q false "concept"
        tid content).getLabel "reason" =
        some (.str "Could not generate embedding")) ∧
    (LocalEmbeddingClassifier.classify edges db_avg dup_q near_q false
        "concept" tid content).map
      (fun r => r.getScore "error") = .ok (some (.str "Could not generate embedding")) := by
  refine ⟨?_, ?_, ?_, ?_, ?_, ?_, ?_, ?_, ?_⟩
  · simp [RuleBasedClassifier.classify, h1, h2]
  · simp [LocalEmbeddingClassifier.classify, h3]
  · constructor <;>
    simp [LLMClassifier.classify_concept, ClassificationResult.getScore,
      List.lookup]
  · simp [LLMClassifier.classify, LLMClassifier.classify_concept,
      LLMClassifier.classify_entity, h1, h2, ClassificationResult.getScore,
      List.lookup]
  · constructor <;>
    simp [GraphClassifier.classify, GraphClassifier.classify_concept, hfind,
      ClassificationResult.getScore, ClassificationResult.getLabel,
      List.lookup]
  · simp [GraphClassifier.classify, h1, ClassificationResult.getScore,
      List.lookup]
  · constructor <;>
    simp [EmbeddingClassifier.classify, h1, ClassificationResult.getScore,
      List.lookup]
  · constructor <;>
    simp [EmbeddingClassifier.classify, ClassificationResult.getScore,
      ClassificationResult.getLabel, List.lookup]
  · simp [LocalEmbeddingClassifier.classify, ClassificationResult.getScore,
      List.lookup, Except.map]

/-- Witness for C3 at the unknown target type "document", with the local
variant applied to an entity target — the case where it still raises. -/
theorem classify_error_contract_witness :
    ("document" ≠ "concept") ∧ ("document" ≠ "entity") ∧
    ("entity" ≠ "concept") ∧
    (([] : List GraphNode).find? (fun n => n.id == "t1") = none) ∧
    (RuleBasedClassifier.classify [] "document" "t1" {} =
      .error ("Unknown target_type: " ++ "document")) ∧
    (LocalEmbeddingClassifier.classify [] none none none true "entity" "t1" {}
      = .error "LocalEmbeddingClassifier only supports concepts") ∧
    ((LLMClassifier.classify "document" "t1" {} (.error "boom")).getScore
      "error" = some (.bool true)) ∧
    ((GraphClassifier.classify [] false none "concept" "t1").getScore "error" =
      some (.bool true)) ∧
    ((GraphClassifier.classify [] false none "document" "t1").getScore
      "skipped" = some (.bool true)) ∧
    ((EmbeddingClassifier.classify [] none 0 none none false "concept" "t1"
        {}).getScore "error" = some (.bool true)) :=
  have h := classify_error_contract [] "document" "entity" "t1" {} "boom" none
    none none true [] false none (by decide) (by decide) (by decide) (by decide)
  ⟨by decide, by decide, by decide, by decide, h.1, h.2.1, h.2.2.2.1,
   h.2.2.2.2.1.1, h.2.2.2.2.2.1, h.2.2.2.2.2.2.2.1.1⟩

/-- Counterexample to C3 as stated: the rule strategy raises (`ValueError`)
for the unsupported target type "document" instead of returning an
error-flagged result. -/
theorem classify_error_contract_counterexample :
    RuleBasedClassifier.classify [] "document" "t1" {} =
      .error "Unknown target_type: document" := by
  rfl

/-- Filtering an upsert-updated table for the conflict key is the same as
updating the filtered rows, provided the update preserves the key. -/
theorem filter_map_upsert (tbl : List ClassRow)
    (K : String × String × String × String) (upd : ClassRow → ClassRow)
    (hkey : ∀ x, rowKey (upd x) = rowKey x) :
    (tbl.map (fun x => if rowKey x = K then upd x else x)).filter
        (fun x => decide (rowKey x = K)) =
      (tbl.filter (fun x => decide (rowKey x = K))).map upd := by
  induction tbl with
  | nil => rfl
  | cons a t ih =>
    by_cases hx : rowKey a = K
    · simp [List.filter_cons, hx, hkey, ih]
    · simp [List.filter_cons, hx, ih]

/-- Claim C1 (amended): when exactly one row `r` is persisted under the CLI
key, `save_classification` replaces its `scores`/`labels`/`rationale` in
place — afterwards the key still has exactly one row, whose `id`,
`confidence` and `input_hash` (in particular) are unchanged — while
`BaseClassifier.save_result` on the same key fails the unique-key insert
instead of replacing. -/
theorem save_upsert_replaces
    (tbl : List ClassRow) (r : ClassRow) (newId cid : String)
    (res : RunClassifiers.CliResult)
    (h : tbl.filter (fun x => decide (rowKey x = RunClassifiers.cliKey cid res))
      = [r]) :
    (RunClassifiers.save_classification tbl newId cid res).filter
        (fun x => decide (rowKey x = RunClassifiers.cliKey cid res)) =
      [{ r with scores := res.scores, labels := res.labels,
                rationale := some res.rationale }] ∧
    ∀ (id2 : String) (res2 : ClassificationResult),
      resultKey res2 = RunClassifiers.cliKey cid res →
      BaseClassifier.save_result tbl id2 res2 =
        .error "duplicate key value violates unique constraint" := by
  have hmem : r ∈ tbl ∧ decide (rowKey r = RunClassifiers.cliKey cid res) = true := by
    have : r ∈ tbl.filter
        (fun x => decide (rowKey x = RunClassifiers.cliKey cid res)) := by
      rw [h]; exact List.mem_singleton.mpr rfl
    exact ⟨(List.mem_filter.mp this).1, (List.mem_filter.mp this).2⟩
  have hany : tbl.any
      (fun x => decide (rowKey x = RunClassifiers.cliKey cid res)) = true :=
    List.any_eq_true.mpr ⟨r, hmem.1, hmem.2⟩
  constructor
  · rw [RunClassifiers.save_classification]
    simp only [hany, if_true]
    rw [filter_map_upsert tbl (RunClassifiers.cliKey cid res)
      (fun x => { x with scores := res.scores, labels := res.labels,
                         rationale := some res.rationale })
      (fun x => rfl)]
    rw [h]
    rfl
  · intro id2 res2 hk
    rw [BaseClassifier.save_result]
    simp only [hk, hany, if_true]

/-- Witness for C1: a table holding one persisted row for the key, re-saved
with fresh scores. -/
theorem save_upsert_replaces_witness :
    ([({ id := "row-1", target_type := "concept", target_id := "c1",
         classifier_id := "rule-completeness-v1", classifier_version := "1.0.0",
         scores := [("promotion_ready", .bool true)],
         input_hash := some "sha256:old" } : ClassRow)].filter
      (fun x => decide (rowKey x = RunClassifiers.cliKey "c1"
        { classifier_id := "rule-completeness-v1",
          scores := [("promotion_ready", .bool false)] })) =
      [{ id := "row-1", target_type := "concept", target_id := "c1",
         classifier_id := "rule-completeness-v1", classifier_version := "1.0.0",
         scores := [("promotion_ready", .bool true)],
         input_hash := some "sha256:old" }]) ∧
    (RunClassifiers.save_classification
        [{ id := "row-1", target_type := "concept", target_id := "c1",
           classifier_id := "rule-completeness-v1",
           classifier_version := "1.0.0",
           scores := [("promotion_ready", .bool true)],
           input_hash := some "sha256:old" }] "row-2" "c1"
        { classifier_id := "rule-completeness-v1",
          scores := [("promotion_ready", .bool false)] }).filter
      (fun x => decide (rowKey x = RunClassifiers.cliKey "c1"
        { classifier_id := "rule-completeness-v1",
          scores := [("promotion_ready", .bool false)] })) =
      [{ id := "row-1", target_type := "concept", target_id := "c1",
         classifier_id := "rule-completeness-v1", classifier_version := "1.0.0",
         scores := [("promotion_ready", .bool false)], labels := [],
         confidence := none, rationale := some "",
         input_hash := some "sha256:old" }] :=
  ⟨by decide,
   (save_upsert_replaces
     [{ id := "row-1", target_type := "concept", target_id := "c1",
        classifier_id := "rule-completeness-v1", classifier_version := "1.0.0",
        scores := [("promotion_ready", .bool true)],
        input_hash := some "sha256:old" }]
     { id := "row-1", target_type := "concept", target_id := "c1",
       classifier_id := "rule-completeness-v1", classifier_version := "1.0.0",
       scores := [("promotion_ready", .bool true)],
       input_hash := some "sha256:old" }
     "row-2" "c1"
     { classifier_id := "rule-completeness-v1",
       scores := [("promotion_ready", .bool false)] } (by decide)).1⟩

/-- Counterexample to C1 as stated: `BaseClassifier.save_result` on a key that
already has a persisted row does not replace it — the plain `INSERT` fails the
unique-key constraint (and had the table lacked the constraint, it would have
appended a second row). -/
theorem save_upsert_replaces_counterexample :
    BaseClassifier.save_result
        [{ id := "row-1", target_type := "concept", target_id := "c1",
           classifier_id := "rule-completeness-v1",
           classifier_version := "1.0.0",
           scores := [("promotion_ready", .bool true)],
           input_hash := some "sha256:old" }] "row-2"
        { target_type := "concept", target_id := "c1",
          classifier_id := "rule-completeness-v1",
          classifier_version := "1.0.0",
          scores := [("promotion_ready", .bool false)],
          input_hash := some "sha256:old" } =
      .error "duplicate key value violates unique constraint" := by
  rfl

/-- `insertBy` is a permutation of consing. -/
theorem insertBy_perm {α : Type} (le : α → α → Bool) (a : α) (l : List α) :
    (insertBy le a l).Perm (a :: l) := by
  induction l with
  | nil => exact List.Perm.refl _
  | cons b t ih =>
    by_cases hab : le a b = true
    · simp [insertBy, hab]
    · simp only [insertBy, hab, if_false, Bool.false_eq_true]
      exact (ih.cons b).trans (List.Perm.swap a b t)

/-- `sortBy` is a permutation of its input. -/
theorem sortBy_perm {α : Type} (le : α → α → Bool) (l : List α) :
    (sortBy le l).Perm l := by
  induction l with
  | nil => exact List.Perm.refl _
  | cons a t ih => exact (insertBy_perm le a (sortBy le t)).trans (ih.cons a)

/-- Inserting into a sorted list keeps it sorted, for a transitive total
comparison. -/
theorem insertBy_pairwise {α : Type} (le : α → α → Bool)
    (htrans : ∀ x y z, le x y = true → le y z = true → le x z = true)
    (htot : ∀ x y, le x y = true ∨ le y x = true) (a : α) (l : List α)
    (hl : l.Pairwise (fun x y => le x y = true)) :
    (insertBy le a l).Pairwise (fun x y => le x y = true) := by
  induction l with
  | nil => simp [insertBy]
  | cons b t ih =>
    rcases List.pairwise_cons.mp hl with ⟨hb, ht⟩
    by_cases hab : le a b = true
    · simp only [insertBy, hab, if_true]
      refine List.pairwise_cons.mpr ⟨?_, hl⟩
      intro x hx
      rcases List.mem_cons.mp hx with hx | hx
      · rw [hx]; exact hab
      · exact htrans a b x hab (hb x hx)
    · simp only [insertBy, hab, if_false, Bool.false_eq_true]
      refine List.pairwise_cons.mpr ⟨?_, ih ht⟩
      intro x hx
      have hx2 := (insertBy_perm le a t).mem_iff.mp hx
      rcases List.mem_cons.mp hx2 with hx2 | hx2
      · rw [hx2]
        rcases htot a b with h | h
        · exact absurd h hab
        · exact h
      · exact hb x hx2

/-- `sortBy` sorts, for a transitive total comparison. -/
theorem sortBy_pairwise {α : Type} (le : α → α → Bool)
    (htrans : ∀ x y z, le x y = true → le y z = true → le x z = true)
    (htot : ∀ x y, le x y = true ∨ le y x = true) (l : List α) :
    (sortBy le l).Pairwise (fun x y => le x y = true) := by
  induction l with
  | nil => simp [sortBy]
  | cons a t ih => exact insertBy_pairwise le htrans htot a (sortBy le t) ih

/-- `strLeChars` is transitive. -/
theorem strLeChars_trans : ∀ as bs cs, strLeChars as bs = true →
    strLeChars bs cs = true → strLeChars as cs = true := by
  intro as
  induction as with
  | nil => intro bs cs _ _; rfl
  | cons a as ih =>
    intro bs cs h1 h2
    cases bs with
    | nil => simp [strLeChars] at h1
    | cons b bs =>
      cases cs with
      | nil => simp [strLeChars] at h2
      | cons c cs =>
        simp only [strLeChars] at h1 h2 ⊢
        split_ifs at h1 h2 ⊢ <;> try omega
        all_goals first
          | rfl
          | exact ih bs cs h1 h2

/-- `strLeChars` is total. -/
theorem strLeChars_total : ∀ as bs,
    strLeChars as bs = true ∨ strLeChars bs as = true := by
  intro as
  induction as with
  | nil => intro bs; left; rfl
  | cons a as ih =>
    intro bs
    cases bs with
    | nil => right; rfl
    | cons b bs =>
      simp only [strLeChars]
      split_ifs <;> first
        | (left; rfl)
        | (right; rfl)
        | omega
        | exact ih bs

/-- `strLe` is transitive. -/
theorem strLe_trans (a b c : String) (h1 : strLe a b = true)
    (h2 : strLe b c = true) : strLe a c = true :=
  strLeChars_trans _ _ _ h1 h2

/-- `strLe` is total. -/
theorem strLe_total (a b : String) : strLe a b = true ∨ strLe b a = true :=
  strLeChars_total _ _

/-- Claim C8 (amended): the base-classifier batch helpers return exactly the
pending rows ordered by `created_at`; the CLI pipeline's concept fetch also
returns exactly the pending rows but orders them by `id`; a nonzero limit
caps the number processed. -/
theorem pending_fetch_ordering (tbl : List ConceptRow)
    (etbl : List BaseClassifier.EntityRow)
    (n : Nat) (l : List ConceptRow) (hn : n ≠ 0) :
    (BaseClassifier.get_pending_concepts tbl).Pairwise
        (fun a b => a.created_at ≤ b.created_at) ∧
    (BaseClassifier.get_pending_concepts tbl).Perm
        (tbl.filter (fun c => c.approval_status == "pending")) ∧
    (∀ c ∈ BaseClassifier.get_pending_concepts tbl,
        c.approval_status = "pending") ∧
    (BaseClassifier.get_pending_entities etbl).Pairwise
        (fun a b => a.created_at ≤ b.created_at) ∧
    (BaseClassifier.get_pending_entities etbl).Perm
        (etbl.filter (fun e => e.approval_status == "pending")) ∧
    (RunClassifiers.get_pending_concepts tbl).Pairwise
        (fun a b => strLe a.id b.id = true) ∧
    (RunClassifiers.get_pending_concepts tbl).Perm
        (tbl.filter (fun c => c.approval_status == "pending")) ∧
    (BaseClassifier.apply_limit (some n) l).length ≤ n := by
  refine ⟨?_, sortBy_perm _ _, ?_, ?_, sortBy_perm _ _, ?_, sortBy_perm _ _, ?_⟩
  · exact (sortBy_pairwise _
      (fun x y z hxy hyz => by
        simp only [decide_eq_true_eq] at hxy hyz ⊢; omega)
      (fun x y => by
        simp only [decide_eq_true_eq]; omega) _).imp
      (fun h => of_decide_eq_true h)
  · intro c hc
    have := (sortBy_perm _ _).mem_iff.mp hc
    have := (List.mem_filter.mp this).2
    exact eq_of_beq this
  · exact (sortBy_pairwise _
      (fun x y z hxy hyz => by
        simp only [decide_eq_true_eq] at hxy hyz ⊢; omega)
      (fun x y => by
        simp only [decide_eq_true_eq]; omega) _).imp
      (fun h => of_decide_eq_true h)
  · exact sortBy_pairwise
      (fun a b : ConceptRow => strLe a.id b.id)
      (fun x y z hxy hyz => strLe_trans x.id y.id z.id hxy hyz)
      (fun x y => strLe_total x.id y.id) _
  · simp only [BaseClassifier.apply_limit, hn, if_false]
    rw [List.length_take]
    exact min_le_left n l.length

/-- Witness for C8 on a two-row table and limit 1. -/
theorem pending_fetch_ordering_witness :
    ((2 : Nat) ≠ 0) ∧
    ((BaseClassifier.get_pending_concepts
        [{ id := "b", created_at := 1 }, { id := "a", created_at := 2 }]).Pairwise
      (fun a b => a.created_at ≤ b.created_at)) ∧
    ((BaseClassifier.get_pending_concepts
        [{ id := "b", created_at := 1 }, { id := "a", created_at := 2 }]).map
      (fun c => c.id) = ["b", "a"]) ∧
    ((RunClassifiers.get_pending_concepts
        [{ id := "b", created_at := 1 }, { id := "a", created_at := 2 }]).map
      (fun c => c.id) = ["a", "b"]) ∧
    (BaseClassifier.apply_limit (some 2)
        [({ id := "b", created_at := 1 } : ConceptRow),
         { id := "a", created_at := 2 }, { id := "c", created_at := 3 }]).length
      ≤ 2 :=
  ⟨by decide,
   (pending_fetch_ordering
     [{ id := "b", created_at := 1 }, { id := "a", created_at := 2 }] [] 2
     [{ id := "b", created_at := 1 }, { id := "a", created_at := 2 },
      { id := "c", created_at := 3 }] (by decide)).1,
   by decide, by decide,
   (pending_fetch_ordering
     [{ id := "b", created_at := 1 }, { id := "a", created_at := 2 }] [] 2
     [{ id := "b", created_at := 1 }, { id := "a", created_at := 2 },
      { id := "c", created_at := 3 }] (by decide)).2.2.2.2.2.2.2⟩

/-- Counterexample to C8 as stated: the CLI fetch orders by `id`, and on a
table where id order disagrees with creation order the returned pending rows
are not ordered by creation time. -/
theorem pending_fetch_ordering_counterexample :
    ((RunClassifiers.get_pending_concepts
        [{ id := "b", created_at := 1 }, { id := "a", created_at := 2 }]).map
      (fun c => c.created_at) = [2, 1]) ∧
    ¬ ((RunClassifiers.get_pending_concepts
        [{ id := "b", created_at := 1 }, { id := "a", created_at := 2 }]).Pairwise
      (fun a b => a.created_at ≤ b.created_at)) := by
  constructor
  · decide
  · intro h
    have := List.pairwise_cons.mp
      (by
        have hmap : (RunClassifiers.get_pending_concepts
            [{ id := "b", created_at := 1 }, { id := "a", created_at := 2 }]) =
            [{ id := "a", created_at := 2 }, { id := "b", created_at := 1 }] := by
          decide
        rw [hmap] at h
        exact h)
    have h21 := this.1 { id := "b", created_at := 1 } (by simp)
    exact absurd h21 (by decide)

/-- Claim C9: the generate-if-missing embedding writes are the engine's only
concept-table writes, and they never touch `approval_status` (or anything but
the embedding column): both `ensure_embedding` variants leave every row's
identity and approval status — indeed the whole row apart from the written
embedding column — unchanged, for every table, target and provider outcome.
(`save_result` / `save_classification` write only the `classification`
table by construction.) -/
theorem ensure_embedding_preserves_status
    (db : List ConceptRow) (concept_id : String) (content : Content)
    (provider provider2 : String → Option (List Q)) :
    ((EmbeddingClassifier.ensure_embedding db concept_id content
        provider).2.map (fun c => (c.id, c.approval_status)) =
      db.map (fun c => (c.id, c.approval_status))) ∧
    ((EmbeddingClassifier.ensure_embedding db concept_id content
        provider).2.map (fun c => { c with embedding := none }) =
      db.map (fun c => { c with embedding := none })) ∧
    ((LocalEmbeddingClassifier.ensure_embedding db concept_id content
        provider2).2.map (fun c => (c.id, c.approval_status)) =
      db.map (fun c => (c.id, c.approval_status))) ∧
    ((LocalEmbeddingClassifier.ensure_embedding db concept_id content
        provider2).2.map (fun c => { c with embedding_local := none }) =
      db.map (fun c => { c with embedding_local := none })) := by
  refine ⟨?_, ?_, ?_, ?_⟩
  all_goals cases hf : db.find? (fun c => c.id == concept_id) with
  | none =>
    first
    | cases hp : provider (content.preferred_label ++ ": " ++
          content.definition) with
      | none => simp [EmbeddingClassifier.ensure_embedding,
          LocalEmbeddingClassifier.ensure_embedding, hf, hp]
      | some v =>
        simp [EmbeddingClassifier.ensure_embedding,
          LocalEmbeddingClassifier.ensure_embedding, hf, hp]
        intro a _
        by_cases hx : a.id = concept_id <;> simp [hx]
    | cases hp : provider2 (content.preferred_label ++ ": " ++
          content.definition) with
      | none => simp [EmbeddingClassifier.ensure_embedding,
          LocalEmbeddingClassifier.ensure_embedding, hf, hp]
      | some v =>
        simp [EmbeddingClassifier.ensure_embedding,
          LocalEmbeddingClassifier.ensure_embedding, hf, hp]
        intro a _
        by_cases hx : a.id = concept_id <;> simp [hx]
  | some c =>
    first
    | (by_cases he : c.embedding.isSome
       · simp [EmbeddingClassifier.ensure_embedding, hf, he]
       · cases hp : provider (content.preferred_label ++ ": " ++
            content.definition) with
        | none => simp [EmbeddingClassifier.ensure_embedding, hf, he, hp]
        | some v =>
          simp [EmbeddingClassifier.ensure_embedding, hf, he, hp]
          intro a _
          by_cases hx : a.id = concept_id <;> simp [hx])
    | (by_cases he : c.embedding_local.isSome
       · simp [LocalEmbeddingClassifier.ensure_embedding, hf, he]
       · cases hp : provider2 (content.preferred_label ++ ": " ++
            content.definition) with
        | none => simp [LocalEmbeddingClassifier.ensure_embedding, hf, he, hp]
        | some v =>
          simp [LocalEmbeddingClassifier.ensure_embedding, hf, he, hp]
          intro a _
          by_cases hx : a.id = concept_id <;> simp [hx])
